import Mathlib

/-!
Shallow embedding of the content-acquisition and search core of the `surf`
repository (Python), together with theorems settling the frozen claims about
its specification.

Modelling conventions:
* External library calls (aiohttp transport, `json.loads` of a backend body,
  Python's regex engine) are oracles: their observable outcome is an input of
  the embedded function (a transport-error marker, an `Option Json` parse
  result, lists of regex matches).
* Python exceptions are modelled with `Except String`: a `raise` is `.error`,
  a `try/except` handler is a `match` on the body's result.  A function that
  Python callers see as total (all exceptions caught) is proved to always
  return `.ok`.
* Python truthiness of a BeautifulSoup tag (a tag with no children is falsy)
  is modelled explicitly where the code relies on it.
* Machine strings are Lean `String`; Python `str.strip` is `String.trim`
  (both trim ASCII whitespace), `str.replace` is `String.replace`.
-/

namespace Surf

/-- Minimal model of a parsed JSON value, as produced by `json.loads` /
`aiohttp` `response.json()`. -/
inductive Json where
  | null
  | bool (b : Bool)
  | num (n : Int)
  | str (s : String)
  | arr (elems : List Json)
  | obj (fields : List (String × Json))

/-- Python `d.get(key, default)` on a parsed JSON value: succeeds with the
looked-up field (first binding) on a dict, raises `AttributeError` on any
non-dict value. -/
def pyDictGet (j : Json) (key : String) (dflt : Json) : Except String Json :=
  match j with
  | .obj fields => .ok ((fields.lookup key).getD dflt)
  | _ => .error "AttributeError: object has no attribute get"

/-- Normalized search result produced by the JSON adapters (SearXNG, Brave):
the Python code copies the raw JSON field values into the result dict, so the
fields are arbitrary JSON values. -/
structure NormResult where
  title : Json
  url : Json
  snippet : Json

/-- Search result produced by the DuckDuckGo HTML scraper: regex captures are
genuine strings, so all three fields are strings. -/
structure SearchResult where
  title : String
  url : String
  snippet : String
deriving DecidableEq

/-- The shared normalization loop of the JSON adapters
(`for result in ...: results.append({... result.get(...) ...})`), iterating a
JSON value as Python would: a list yields its elements, an empty dict or empty
string yields nothing, and every other value either is not iterable
(`TypeError`) or yields non-dict items whose `.get` raises `AttributeError`. -/
def normalizeEntries (snippetField : String) (v : Json) : Except String (List NormResult) :=
  match v with
  | .arr entries =>
    entries.mapM (fun e => do
      let t ← pyDictGet e "title" (.str "")
      let u ← pyDictGet e "url" (.str "")
      let s ← pyDictGet e snippetField (.str "")
      pure ⟨t, u, s⟩)
  | .obj [] => .ok []
  | .str "" => .ok []
  | _ => .error "TypeError or AttributeError while iterating results"

/-- Outcome of the network interaction of a JSON-API adapter, as observed by
the adapter body: either an `aiohttp.ClientError` during the request, or a
response with its status and the result of `response.json()` (`none` models a
raising parse). -/
inductive JsonApiEvent where
  | transportError
  | response (status : Nat) (parsed : Option Json)

/-- `except Exception: return []` — the outermost handler of every adapter. -/
def handleAll (r : Except String (List α)) : Except String (List α) :=
  match r with
  | .ok l => .ok l
  | .error _ => .ok []

/-- Extract the Python return value from a never-raising computation. -/
def getList (r : Except String (List α)) : List α :=
  match r with
  | .ok l => l
  | .error _ => []

namespace SearXNGClient

/-- Result-processing loop of `SearXNGClient.search`: reads
`response_data.get("results", [])` and maps each entry's
`title`/`url`/`content` fields. -/
def processResults (data : Json) : Except String (List NormResult) := do
  let rv ← pyDictGet data "results" (.arr [])
  normalizeEntries "content" rv

/-- Body of `SearXNGClient.search` inside the outer `try`: a transport error
is caught by the inner `except aiohttp.ClientError` (→ `[]`); a non-200 status
raises `ValueError`; a failing `response.json()` returns `[]`; otherwise the
processed results are truncated to `num_results`. -/
def searchBody (ev : JsonApiEvent) (numResults : Nat) : Except String (List NormResult) :=
  match ev with
  | .transportError => .ok []
  | .response status parsed =>
    if status = 200 then
      match parsed with
      | none => .ok []
      | some data => do
        let rs ← processResults data
        pure (rs.take numResults)
    else .error "ValueError: SearXNG search failed"

/-- `SearXNGClient.search` as seen at the adapter boundary (outer
`except Exception` applied). -/
def searchE (ev : JsonApiEvent) (numResults : Nat) : Except String (List NormResult) :=
  handleAll (searchBody ev numResults)

/-- The list `SearXNGClient.search` returns. -/
def search (ev : JsonApiEvent) (numResults : Nat) : List NormResult :=
  getList (searchE ev numResults)

end SearXNGClient

namespace BraveSearchClient

/-- `BraveSearchClient._process_brave_results`: reads
`response_data.get("web", {}).get("results", [])` and maps each entry's
`title`/`url`/`description` fields.  Note: no truncation to the requested
count happens here or in the caller. -/
def processBraveResults (data : Json) : Except String (List NormResult) := do
  let web ← pyDictGet data "web" (.obj [])
  let rv ← pyDictGet web "results" (.arr [])
  normalizeEntries "description" rv

/-- Body of `BraveSearchClient.search` inside the outer `try` (after the
api-key guard). -/
def searchBody (ev : JsonApiEvent) : Except String (List NormResult) :=
  match ev with
  | .transportError => .ok []
  | .response status parsed =>
    if status = 200 then
      match parsed with
      | none => .ok []
      | some data => processBraveResults data
    else .error "ValueError: Brave Search failed"

/-- `BraveSearchClient.search` at the adapter boundary: a falsy (absent or
empty) api key short-circuits to `[]` before any request; otherwise the body
runs under `except Exception: return []`.  `numResults` is only sent to the
backend as the `count` query parameter of the outbound request; it does not
shape the returned list. -/
def searchE (apiKey : Option String) (ev : JsonApiEvent) (numResults : Nat) :
    Except String (List NormResult) :=
  if apiKey.getD "" = "" then .ok []
  else
    let _requestCount := numResults
    handleAll (searchBody ev)

/-- The list `BraveSearchClient.search` returns. -/
def search (apiKey : Option String) (ev : JsonApiEvent) (numResults : Nat) : List NormResult :=
  getList (searchE apiKey ev numResults)

end BraveSearchClient

/-! ### Executable string primitives

Kernel-reducible models of the Python string operations the source uses
(`strip`, `replace`, `lower`, `split`, `in`), all defined over character
lists so that every theorem witness can be checked by evaluation. -/

/-- Whether `needle` occurs at the start of `hay`. -/
def listStartsWith : List Char → List Char → Bool
  | _, [] => true
  | [], _ :: _ => false
  | a :: as, b :: bs => (a = b) && listStartsWith as bs

/-- Whether `needle` occurs contiguously anywhere in `hay`. -/
def listContainsSub : List Char → List Char → Bool
  | [], needle => needle.isEmpty
  | a :: as, needle => listStartsWith (a :: as) needle || listContainsSub as needle

/-- Python `needle in hay` on strings. -/
def strContains (hay needle : String) : Bool :=
  listContainsSub hay.toList needle.toList

/-- Python `s.strip()`: whitespace removed from both ends. -/
def pyStrip (s : String) : String :=
  String.mk (((s.toList.dropWhile Char.isWhitespace).reverse.dropWhile
    Char.isWhitespace).reverse)

/-- Replacement loop of Python `s.replace(pat, rep)` for a non-empty `pat`:
left-to-right, non-overlapping.  Fuel is the initial length; each step
consumes at least one character. -/
def replaceGo (pat rep : List Char) : Nat → List Char → List Char
  | 0, cs => cs
  | _ + 1, [] => []
  | fuel + 1, c :: cs =>
    if listStartsWith (c :: cs) pat then
      rep ++ replaceGo pat rep fuel (cs.drop (pat.length - 1))
    else c :: replaceGo pat rep fuel cs

/-- Python `s.replace(pat, rep)` (the source only uses non-empty patterns). -/
def strReplace (s pat rep : String) : String :=
  if pat.toList.isEmpty then s
  else String.mk (replaceGo pat.toList rep.toList s.toList.length s.toList)

/-- Python `s.lower()` (ASCII case folding suffices for media types). -/
def toLowerStr (s : String) : String :=
  String.mk (s.toList.map Char.toLower)

/-- Splitting loop of Python `s.split(sep)` for a non-empty `sep`. -/
def splitOnGo (sep : List Char) : Nat → List Char → List Char → List (List Char)
  | 0, acc, cs => [acc.reverse ++ cs]
  | _ + 1, acc, [] => [acc.reverse]
  | fuel + 1, acc, c :: cs =>
    if listStartsWith (c :: cs) sep then
      acc.reverse :: splitOnGo sep fuel [] (cs.drop (sep.length - 1))
    else splitOnGo sep fuel (c :: acc) cs

/-- Python `s.split(sep)` (the source only uses non-empty separators). -/
def strSplitOn (s sep : String) : List String :=
  if sep.toList.isEmpty then [s]
  else (splitOnGo sep.toList s.toList.length [] s.toList).map String.mk

/-- The five HTML entity replacements of the DuckDuckGo scraper, applied in
source order to titles and snippets. -/
def decodeEntities (s : String) : String :=
  strReplace (strReplace (strReplace (strReplace (strReplace s
    "&quot;" "\"") "&amp;" "&") "&lt;" "<") "&gt;" ">") "&#x27;" "'"

/-- One step list of the tag-stripping substitution `re.sub(r'<[^>]+>', ' ', s)`:
each occurrence of `<`, one or more non-`>` characters, `>` is replaced by a
single space.  Fuel is the initial length; every step consumes at least one
character. -/
def stripTagsGo : Nat → List Char → List Char
  | 0, cs => cs
  | _ + 1, [] => []
  | fuel + 1, c :: rest =>
    if c = '<' then
      match rest.span (fun d => d ≠ '>') with
      | (_, []) => c :: rest
      | ([], _ :: _) => c :: stripTagsGo fuel rest
      | (_ :: _, _ :: after) => ' ' :: stripTagsGo fuel after
    else c :: stripTagsGo fuel rest

/-- `re.sub(r'<[^>]+>', ' ', s)` as used on DuckDuckGo snippets. -/
def stripTags (s : String) : String :=
  String.mk (stripTagsGo s.toList.length s.toList)

/-- One result record of `DuckDuckGoClient._parse_html_results`: the `i`-th
anchor match `(url, title)` paired with the `i`-th snippet match when one
exists (else the empty string), then stripped and entity-decoded exactly as
the Python loop does.  The url is used verbatim. -/
def ddgEntry (snippetMatches : List String) (i : Nat) (url title : String) : SearchResult :=
  let snippet0 := match snippetMatches[i]? with
    | some s => stripTags s
    | none => ""
  { title := decodeEntities (pyStrip title)
    url := url
    snippet := decodeEntities (pyStrip snippet0) }

/-- The `for i, (url, title) in enumerate(title_matches)` loop. -/
def ddgParseGo (snippetMatches : List String) : Nat → List (String × String) → List SearchResult
  | _, [] => []
  | i, (url, title) :: rest =>
    ddgEntry snippetMatches i url title :: ddgParseGo snippetMatches (i + 1) rest

namespace DuckDuckGoClient

/-- `DuckDuckGoClient._parse_html_results`, abstracted over the two
`re.findall` oracle outputs: `titleMatches` are the `(href, text)` captures of
the result-anchor pattern, `snippetMatches` the captures of the snippet
pattern.  The body cannot raise, so its `try/except` is invisible. -/
def parseHtmlResults (titleMatches : List (String × String))
    (snippetMatches : List String) : List SearchResult :=
  ddgParseGo snippetMatches 0 titleMatches

/-- Network outcome observed by `DuckDuckGoClient.search`: transport error, or
a response with status and the regex matches found in its body text. -/
inductive Event where
  | transportError
  | response (status : Nat) (titleMatches : List (String × String))
      (snippetMatches : List String)

/-- Body of `DuckDuckGoClient.search` inside the outer `try`. -/
def searchBody (ev : Event) (numResults : Nat) : Except String (List SearchResult) :=
  match ev with
  | .transportError => .ok []
  | .response status tm sm =>
    if status = 200 then .ok ((parseHtmlResults tm sm).take numResults)
    else .error "ValueError: DuckDuckGo search failed"

/-- `DuckDuckGoClient.search` at the adapter boundary. -/
def searchE (ev : Event) (numResults : Nat) : Except String (List SearchResult) :=
  handleAll (searchBody ev numResults)

/-- The list `DuckDuckGoClient.search` returns. -/
def search (ev : Event) (numResults : Nat) : List SearchResult :=
  getList (searchE ev numResults)

/-- `DuckDuckGoClient._convert_language`: fixed eight-entry locale table,
defaulting to the worldwide code. -/
def convertLanguage (language : String) : String :=
  (([("en-US", "us-en"), ("en-GB", "uk-en"), ("en-CA", "ca-en"),
     ("fr-FR", "fr-fr"), ("de-DE", "de-de"), ("es-ES", "es-es"),
     ("it-IT", "it-it"), ("ja-JP", "jp-jp")] : List (String × String)).lookup
    language).getD "wt-wt"

/-- `DuckDuckGoClient._convert_time_range`. -/
def convertTimeRange (timeRange : String) : String :=
  (([("day", "d"), ("week", "w"), ("month", "m"), ("year", "y")] :
      List (String × String)).lookup timeRange).getD ""

end DuckDuckGoClient

/-! ### HTML table conversion (`HTMLCleaner._convert_tables`)

A `<table>` is modelled structurally: the optional `<thead>` as the list of
`<tr>` rows inside it, and the remaining `<tr>` rows of the table in document
order (a thead, when present, precedes the body rows, matching parsed HTML).
A cell records whether it is a `<th>`, its `get_text()` content, and its
BeautifulSoup truthiness (whether the tag has any children). -/

/-- A `<th>` or `<td>` cell. -/
structure Cell where
  isTh : Bool
  truthy : Bool
  text : String
deriving DecidableEq

/-- A `<tr>` row.  Equality of rows models BeautifulSoup structural tag
equality (`==` compares name, attributes and contents). -/
structure TRow where
  cells : List Cell
deriving DecidableEq

/-- A `<table>` element. -/
structure HtmlTable where
  thead : Option (List TRow)
  bodyRows : List TRow
deriving DecidableEq

namespace HTMLCleaner

/-- `table.find_all('tr')`: rows inside the thead followed by the rest. -/
def allRows (t : HtmlTable) : List TRow :=
  (t.thead.getD []) ++ t.bodyRows

/-- Truthiness of `header_row = table.find('thead')`: `None` when absent, and
a childless thead tag is falsy. -/
def theadTruthy (t : HtmlTable) : Bool :=
  match t.thead with
  | some rows => !rows.isEmpty
  | none => false

/-- `cell.get_text().strip()`. -/
def cellText (c : Cell) : String :=
  pyStrip c.text

/-- Header extraction: from a truthy thead, `find_all(['th'])` (only `<th>`
cells); otherwise from `table.find('tr')`, `find_all(['th', 'td'])`. -/
def headers (t : HtmlTable) : List String :=
  if theadTruthy t then
    (((t.thead.getD []).flatMap (fun r => r.cells)).filter (fun c => c.isTh)).map cellText
  else
    match allRows t with
    | [] => []
    | first :: _ => first.cells.map cellText

/-- `any(tr.find_all('th'))`: Python `any` over tag truthiness, so an empty
`<th></th>` does not count. -/
def hasTruthyTh (r : TRow) : Bool :=
  r.cells.any (fun c => c.isTh && c.truthy)

/-- The row-skipping test of the body loop:
`tr == header_row or (not header_row and tr == table.find('tr') and any(tr.find_all('th')))`.
`tr == header_row` is always false (a `tr` tag never structurally equals a
`thead` tag or `None`), so a row is skipped exactly when the thead is falsy,
the row structurally equals the first row, and it contains a truthy `<th>`. -/
def skipRow (t : HtmlTable) (r : TRow) : Bool :=
  !theadTruthy t &&
    (match allRows t with
     | [] => false
     | first :: _ => decide (r = first) && hasTruthyTh r)

/-- One emitted body line: `'| ' + ' | '.join(row_data) + ' |'` when the row
has cells, nothing otherwise. -/
def rowLine (r : TRow) : Option String :=
  match r.cells.map cellText with
  | [] => none
  | data => some ("| " ++ String.intercalate " | " data ++ " |")

/-- The body lines of the markdown table (rows in `find_all('tr')` order,
skipped rows and cell-less rows omitted). -/
def bodyLines (t : HtmlTable) : List String :=
  (allRows t).filterMap (fun r => if skipRow t r then none else rowLine r)

/-- The two header lines, emitted only when a header was extracted. -/
def headerLines (t : HtmlTable) : List String :=
  match headers t with
  | [] => []
  | hs => ["| " ++ String.intercalate " | " hs ++ " |",
           "| " ++ String.intercalate " | " (hs.map (fun _ => "---")) ++ " |"]

/-- The markdown lines `HTMLCleaner._convert_tables` accumulates for one
table; the table element is replaced by their join only when this list is
non-empty. -/
def convertTable (t : HtmlTable) : List String :=
  headerLines t ++ bodyLines t

end HTMLCleaner

/-! ### Title extraction (`HTMLCleaner.extract_title`)

The `<title>` and first-`<h1>` tags are modelled by their child node lists
(`none` = tag absent).  BeautifulSoup truthiness of a tag is having at least
one child; `Tag.string` is the single `NavigableString` child, chaining
through a single tag child, and `None` whenever the tag holds zero or several
things — in that case the source's `.strip()` call raises
`AttributeError`. -/

/-- A node of a parsed HTML tree: a text node or an element with children. -/
inductive SoupNode where
  | text (s : String)
  | tag (children : List SoupNode)

/-- `tag.get_text()`: concatenation of every descendant text node. -/
def getText : List SoupNode → String
  | [] => ""
  | .text s :: rest => s ++ getText rest
  | .tag cs :: rest => getText cs ++ getText rest

/-- `Tag.string`: the single text child, chaining through a single tag child;
`None` for zero or several children, or a single-tag chain not ending in one
text node. -/
def tagString : List SoupNode → Option String
  | [.text s] => some s
  | [.tag cs] => tagString cs
  | _ => none

namespace HTMLCleaner

/-- `HTMLCleaner.extract_title`: `if soup.title: return soup.title.string.strip()`
— which raises `AttributeError` when `.string` is `None` — else
`h1 = soup.find('h1'); if h1: return h1.get_text().strip()`, else the fixed
placeholder. -/
def extract_title (titleTag h1Tag : Option (List SoupNode)) : Except String String :=
  match titleTag with
  | some (c :: cs) =>
    match tagString (c :: cs) with
    | some s => .ok (pyStrip s)
    | none => .error "AttributeError: NoneType object has no attribute strip"
  | _ =>
    match h1Tag with
    | some (c :: cs) => .ok (pyStrip (getText (c :: cs)))
    | _ => .ok "No title found"

end HTMLCleaner

/-! ### Fetcher (`WebFetcher.fetch_url`) -/

/-- A received HTTP response as the fetcher observes it: status, the parsed
numeric `Content-Length` header when present, the raw `Content-Type` header,
and the decoded body (`none` models a `UnicodeDecodeError` in
`response.text()`). -/
structure HttpResponse where
  status : Nat
  contentLength : Option Nat
  contentType : String
  bodyText : Option String

/-- Network outcome of the single GET: a transport error (any of the caught
`aiohttp` exception classes) or a response. -/
inductive FetchEvent where
  | transportError
  | response (r : HttpResponse)

/-- Return value of `fetch_url`: Python `None`, or the `(content, content_type)`
tuple. -/
inductive FetchResult where
  | failed
  | ok (content : String) (contentType : String)
deriving DecidableEq

namespace WebFetcher

/-- `WebFetcher.MAX_CONTENT_SIZE` (10 MiB). -/
def MAX_CONTENT_SIZE : Nat := 10 * 1024 * 1024

/-- `WebFetcher.TEXT_CONTENT_TYPES`. -/
def TEXT_CONTENT_TYPES : List String :=
  ["text/html", "text/plain", "application/json", "application/xml",
   "text/xml", "application/javascript", "text/css", "text/markdown",
   "application/x-yaml", "text/yaml"]

/-- `response.headers.get('Content-Type', '').split(';')[0].lower()`. -/
def normalizeContentType (raw : String) : String :=
  toLowerStr ((strSplitOn raw ";").headD "")

/-- Classification of a 200 response that passed the size guard: substring
match against the text allow-list; decode failure and binary types produce
synthetic `text/plain` outcomes. -/
def classify (contentType : String) (bodyText : Option String) : FetchResult :=
  if TEXT_CONTENT_TYPES.any (fun t => strContains contentType t) then
    match bodyText with
    | some body => .ok body contentType
    | none =>
      .ok ("Failed to decode content as text (content-type: " ++ contentType ++ ")")
        "text/plain"
  else
    .ok ("Binary content type detected: " ++ contentType ++
          ". This content type is not supported for processing.")
      "text/plain"

/-- `WebFetcher.fetch_url`.  The URL-shape check raises `ValueError` before
the `try` block, so it propagates to the caller; every network failure is
caught and converted to `None`; a `Content-Length` above the cap yields the
synthetic oversize outcome without touching the body. -/
def fetch_url (hasScheme hasNetloc : Bool) (ev : FetchEvent) : Except String FetchResult :=
  if !hasScheme || !hasNetloc then .error "ValueError: Invalid URL provided"
  else
    match ev with
    | .transportError => .ok .failed
    | .response r =>
      if r.status ≠ 200 then .ok .failed
      else
        let ct := normalizeContentType r.contentType
        match r.contentLength with
        | some n =>
          if n > MAX_CONTENT_SIZE then
            .ok (.ok ("Content too large to process (size: " ++ toString n ++
                       " bytes, max: " ++ toString MAX_CONTENT_SIZE ++ " bytes)")
                  "text/plain")
          else .ok (classify ct r.bodyText)
        | none => .ok (classify ct r.bodyText)

end WebFetcher

/-! ### Non-HTML extraction (`extract_text_content` in the read router) -/

/-- The normalized document shape `{title, url, content}`. -/
structure NormalizedDocument where
  title : String
  url : String
  content : String
deriving DecidableEq

mutual

/-- Python `repr` of a parsed-JSON value, simplified to the structural shape
(single-quoted strings without escape handling). -/
def pyRepr : Json → String
  | .null => "None"
  | .bool true => "True"
  | .bool false => "False"
  | .num n => toString n
  | .str s => "'" ++ s ++ "'"
  | .arr xs => "[" ++ String.intercalate ", " (pyReprList xs) ++ "]"
  | .obj fs => "\x7b" ++ String.intercalate ", " (pyReprFields fs) ++ "\x7d"

/-- `repr` of the items of a list. -/
def pyReprList : List Json → List String
  | [] => []
  | x :: xs => pyRepr x :: pyReprList xs

/-- `repr` of the items of a dict. -/
def pyReprFields : List (String × Json) → List String
  | [] => []
  | (k, v) :: fs => ("'" ++ k ++ "': " ++ pyRepr v) :: pyReprFields fs

end

/-- Python `str` of a parsed-JSON value, as interpolated by an f-string. -/
def pyStr : Json → String
  | .str s => s
  | j => pyRepr j

/-- `indent * ' '`. -/
def spaces (n : Nat) : String :=
  String.mk (List.replicate n ' ')

/-- JSON string quoting for `json.dumps`, simplified to backslash and quote
escapes. -/
def jsonQuote (s : String) : String :=
  "\"" ++ strReplace (strReplace s "\\" "\\\\") "\"" "\\\"" ++ "\""

mutual

/-- `json.dumps(value, indent=2)` at nesting indentation `ind`. -/
def dumps2 : Nat → Json → String
  | _, .null => "null"
  | _, .bool true => "true"
  | _, .bool false => "false"
  | _, .num n => toString n
  | _, .str s => jsonQuote s
  | _, .arr [] => "[]"
  | ind, .arr (x :: xs) =>
    "[\n" ++ String.intercalate ",\n" (dumpsArr (ind + 2) (x :: xs)) ++
      "\n" ++ spaces ind ++ "]"
  | _, .obj [] => "\x7b\x7d"
  | ind, .obj (f :: fs) =>
    "\x7b\n" ++ String.intercalate ",\n" (dumpsObj (ind + 2) (f :: fs)) ++
      "\n" ++ spaces ind ++ "\x7d"

/-- Array items, each on its own indented line. -/
def dumpsArr : Nat → List Json → List String
  | _, [] => []
  | ind, x :: xs => (spaces ind ++ dumps2 ind x) :: dumpsArr ind xs

/-- Object items, each `"key": value` on its own indented line. -/
def dumpsObj : Nat → List (String × Json) → List String
  | _, [] => []
  | ind, (k, v) :: fs =>
    (spaces ind ++ jsonQuote k ++ ": " ++ dumps2 ind v) :: dumpsObj ind fs

end

/-- The title loop of the JSON branch: first present field among
`title`, `name`, `id`, `key` on a top-level dict, else the generic
placeholder. -/
def jsonTitle (j : Json) : String :=
  match j with
  | .obj fields =>
    match ["title", "name", "id", "key"].find? (fun f => (fields.lookup f).isSome) with
    | some f => "JSON: " ++ pyStr ((fields.lookup f).getD .null)
    | none => "JSON Document"
  | _ => "JSON Document"

/-- The title loop of the plain-text branch: first line whose `strip()` is
non-empty, else the fixed default. -/
def firstNonBlankLine (content : String) : String :=
  match (strSplitOn content "\n").find? (fun l => pyStrip l ≠ "") with
  | some l => pyStrip l
  | none => "Text Document"

/-- Python `content[:5000]`. -/
def take5000 (content : String) : String :=
  String.mk (content.toList.take 5000)

/-- `extract_text_content(content, content_type, url)` from the read router;
`parsed` is the outcome of `json.loads(content)` (`none` models
`json.JSONDecodeError`).  Branches on substring membership in the content
type, exactly as the source does, and never raises. -/
def extract_text_content (content : String) (parsed : Option Json)
    (content_type url : String) : NormalizedDocument :=
  if strContains content_type "text/plain" then
    { title := firstNonBlankLine content, url := url, content := content }
  else if strContains content_type "application/json" then
    match parsed with
    | some json_data =>
      { title := jsonTitle json_data
        url := url
        content := "```json\n" ++ dumps2 0 json_data ++ "\n```" }
    | none =>
      { title := "Invalid JSON Document", url := url, content := content }
  else
    { title := "Document (" ++ content_type ++ ")"
      url := url
      content := "Content type '" ++ content_type ++
        "' not fully supported. Raw content:\n\n```\n" ++ take5000 content ++
        "\n```\n\n(Content may be truncated)" }

/-! ### Search endpoint (`app/api/search.py`) and provider selector -/

/-- Output format of the endpoints. -/
inductive OutputFormat where
  | json
  | markdown
deriving DecidableEq

/-- `format_results_as_markdown` body loop (`enumerate(results, 1)`). -/
def formatResultsGo : Nat → List SearchResult → String
  | _, [] => ""
  | i, r :: rest =>
    "## " ++ toString i ++ ". " ++ r.title ++ "\n\n**URL**: " ++ r.url ++
      "\n\n" ++ r.snippet ++ "\n\n---\n\n" ++ formatResultsGo (i + 1) rest

/-- `format_results_as_markdown` from the search router.  The `.get` defaults
of the source never fire because every adapter result carries all three
keys. -/
def format_results_as_markdown (results : List SearchResult) : String :=
  if results.isEmpty then "No results found."
  else "# Search Results\n\n" ++ formatResultsGo 1 results

/-- The response of the search endpoint: a markdown string, or the JSON
object with its `results` and `query` members and the `provider` member when
the source includes that key. -/
inductive SearchResponse where
  | markdown (body : String)
  | json (results : List SearchResult) (query : String) (provider : Option String)
deriving DecidableEq

/-- The response construction of `search()` in the search router, given the
list the adapter returned: an empty list short-circuits to the fixed
markdown message or to `{"results": [], "query": q}`; otherwise the requested
format is produced, the JSON one with the resolved provider name. -/
def search_endpoint (results : List SearchResult) (q : String)
    (fmt : OutputFormat) (providerName : String) : SearchResponse :=
  if results.isEmpty then
    match fmt with
    | .markdown => .markdown "No search results found."
    | .json => .json [] q none
  else
    match fmt with
    | .markdown => .markdown (format_results_as_markdown results)
    | .json => .json results q (some providerName)

/-- The three concrete clients the factory can build. -/
inductive ClientKind where
  | searxng
  | duckduckgo
  | brave
deriving DecidableEq

namespace SearchClientFactory

/-- `SearchClientFactory.get_client`, over the configured provider
identifier (the `SearchProvider` str-enum values compare equal to their
strings): the matching client, defaulting to SearXNG with a warning on an
unrecognized identifier. -/
def get_client (provider : String) : ClientKind :=
  if provider = "searxng" then .searxng
  else if provider = "duckduckgo" then .duckduckgo
  else if provider = "brave" then .brave
  else .searxng

end SearchClientFactory

/-! ## Helper lemmas -/

/-- The outermost exception handler of every adapter yields a value. -/
theorem handleAll_isOk (r : Except String (List α)) : ∃ l, handleAll r = Except.ok l := by
  cases r <;> exact ⟨_, rfl⟩

/-- The DuckDuckGo parse loop yields one record per anchor match. -/
theorem ddgParseGo_length (sm : List String) (l : List (String × String)) :
    ∀ i, (ddgParseGo sm i l).length = l.length := by
  induction l with
  | nil => intro i; rfl
  | cons head tail ih =>
    intro i
    cases head
    simp [ddgParseGo, ih]

/-- Indexing the DuckDuckGo parse loop output. -/
theorem ddgParseGo_getElem? (sm : List String) (l : List (String × String)) :
    ∀ i j, (ddgParseGo sm i l)[j]? =
      (l[j]?).map (fun ut => ddgEntry sm (i + j) ut.1 ut.2) := by
  induction l with
  | nil => intro i j; simp [ddgParseGo]
  | cons head tail ih =>
    intro i j
    cases head
    cases j with
    | zero => simp [ddgParseGo]
    | succ j =>
      have h := ih (i + 1) j
      simp only [ddgParseGo, List.getElem?_cons_succ, h]
      have : i + 1 + j = i + (j + 1) := by omega
      rw [this]

/-! ## Claims -/

/-- C1: for every transport failure, non-200 backend status, or unparseable
backend response inside any of the three search adapters, `search` returns a
list and never raises past the adapter boundary: the boundary semantics is
always `Except.ok`, and each of the three failure kinds yields the empty
list. -/
theorem adapters_never_raise (n : Nat) :
    ((∀ ev, ∃ l, SearXNGClient.searchE ev n = Except.ok l)
      ∧ SearXNGClient.searchE .transportError n = Except.ok []
      ∧ (∀ s p, s ≠ 200 → SearXNGClient.searchE (.response s p) n = Except.ok [])
      ∧ SearXNGClient.searchE (.response 200 none) n = Except.ok [])
    ∧ ((∀ key ev, ∃ l, BraveSearchClient.searchE key ev n = Except.ok l)
      ∧ (∀ key, BraveSearchClient.searchE key .transportError n = Except.ok [])
      ∧ (∀ key s p, s ≠ 200 →
          BraveSearchClient.searchE key (.response s p) n = Except.ok [])
      ∧ (∀ key, BraveSearchClient.searchE key (.response 200 none) n = Except.ok []))
    ∧ ((∀ ev, ∃ l, DuckDuckGoClient.searchE ev n = Except.ok l)
      ∧ DuckDuckGoClient.searchE .transportError n = Except.ok []
      ∧ (∀ s tm sm, s ≠ 200 →
          DuckDuckGoClient.searchE (.response s tm sm) n = Except.ok [])
      ∧ DuckDuckGoClient.searchE (.response 200 [] []) n = Except.ok []) := by
  refine ⟨⟨?_, by rfl, ?_, by rfl⟩, ⟨?_, ?_, ?_, ?_⟩, ⟨?_, by rfl, ?_,
    by simp [DuckDuckGoClient.searchE, DuckDuckGoClient.searchBody,
      DuckDuckGoClient.parseHtmlResults, ddgParseGo, handleAll]⟩⟩
  · intro ev
    cases ev with
    | transportError => exact ⟨[], rfl⟩
    | response s p => exact handleAll_isOk _
  · intro s p hs
    simp [SearXNGClient.searchE, SearXNGClient.searchBody, hs, handleAll]
  · intro key ev
    unfold BraveSearchClient.searchE
    by_cases hk : key.getD "" = ""
    · simp [hk]
    · simp only [hk, if_neg hk, ite_false]
      exact handleAll_isOk _
  · intro key
    unfold BraveSearchClient.searchE
    by_cases hk : key.getD "" = "" <;>
      simp [hk, BraveSearchClient.searchBody, handleAll]
  · intro key s p hs
    unfold BraveSearchClient.searchE
    by_cases hk : key.getD "" = "" <;>
      simp [hk, BraveSearchClient.searchBody, hs, handleAll]
  · intro key
    unfold BraveSearchClient.searchE
    by_cases hk : key.getD "" = "" <;>
      simp [hk, BraveSearchClient.searchBody, handleAll]
  · intro ev
    cases ev with
    | transportError => exact ⟨[], rfl⟩
    | response s tm sm => exact handleAll_isOk _
  · intro s tm sm hs
    simp [DuckDuckGoClient.searchE, DuckDuckGoClient.searchBody, hs, handleAll]

/-- C1 witness: each failure kind at a concrete input. -/
theorem adapters_never_raise_witness :
    SearXNGClient.searchE (.response 500 none) 3 = Except.ok []
    ∧ BraveSearchClient.searchE (some "k") (.response 500 none) 3 = Except.ok []
    ∧ DuckDuckGoClient.searchE (.response 500 [("u", "t")] []) 3 = Except.ok [] :=
  ⟨(adapters_never_raise 3).1.2.2.1 500 none (by decide),
   (adapters_never_raise 3).2.1.2.2.1 (some "k") 500 none (by decide),
   (adapters_never_raise 3).2.2.2.2.1 500 [("u", "t")] [] (by decide)⟩

/-- C2: a table from which no header row can be extracted — no `<th>` cell
inside a `<thead>` and no `<tr>` at all — produces no markdown lines, so the
converted document contains no pipe-delimited lines from that table. -/
theorem table_without_header_emits_nothing (t : HtmlTable)
    (_hth : ∀ r ∈ t.thead.getD [], ∀ c ∈ r.cells, c.isTh = false)
    (htr : HTMLCleaner.allRows t = []) :
    HTMLCleaner.convertTable t = [] := by
  have h1 : t.thead.getD [] = [] := by
    have h := htr
    unfold HTMLCleaner.allRows at h
    exact (List.append_eq_nil.mp h).1
  have h2 : HTMLCleaner.theadTruthy t = false := by
    unfold HTMLCleaner.theadTruthy
    cases h : t.thead with
    | none => rfl
    | some rows =>
      rw [h] at h1
      simp at h1
      simp [h1]
  simp [HTMLCleaner.convertTable, HTMLCleaner.headerLines, HTMLCleaner.headers,
    HTMLCleaner.bodyLines, h2, htr]

/-- C2 witness: a table with an empty `<thead>` and no rows. -/
theorem table_without_header_emits_nothing_witness :
    HTMLCleaner.convertTable ⟨some [], []⟩ = [] :=
  table_without_header_emits_nothing ⟨some [], []⟩ (by simp) (by rfl)

/-- C3 counterexample: in a table without `<thead>` whose first `<tr>` holds
a single `<td>` cell `A`, the converter emits the first row's line both as
the header and again as a body row — the row is not consumed. -/
theorem table_first_row_duplicated_cex :
    HTMLCleaner.convertTable ⟨none, [⟨[⟨false, true, "A"⟩]⟩]⟩ =
      ["| A |", "| --- |", "| A |"]
    ∧ HTMLCleaner.bodyLines ⟨none, [⟨[⟨false, true, "A"⟩]⟩]⟩ =
        [("| A |" : String)]
    ∧ HTMLCleaner.rowLine ⟨[⟨false, true, "A"⟩]⟩ = some "| A |" := by
  refine ⟨by decide, by decide, by decide⟩

/-- C3 amended: in a table without `<thead>`, the header cells do come from
the first `<tr>`'s cells (whether `<th>` or `<td>`), but that row is treated
as consumed only when it contains a non-empty `<th>` cell; when its cells are
all `<td>` (or only empty `<th>`), no row is skipped and the first row is
repeated as a body row of the markdown table. -/
theorem table_header_fallback_amended (t : HtmlTable) (first : TRow)
    (rest : List TRow) (hthead : t.thead = none)
    (hrows : t.bodyRows = first :: rest) :
    HTMLCleaner.headers t = first.cells.map HTMLCleaner.cellText
    ∧ HTMLCleaner.skipRow t first = HTMLCleaner.hasTruthyTh first
    ∧ (HTMLCleaner.hasTruthyTh first = false →
        HTMLCleaner.bodyLines t = (first :: rest).filterMap HTMLCleaner.rowLine) := by
  have hall : HTMLCleaner.allRows t = first :: rest := by
    simp [HTMLCleaner.allRows, hthead, hrows]
  have htruthy : HTMLCleaner.theadTruthy t = false := by
    simp [HTMLCleaner.theadTruthy, hthead]
  refine ⟨?_, ?_, ?_⟩
  · simp [HTMLCleaner.headers, htruthy, hall]
  · simp [HTMLCleaner.skipRow, htruthy, hall]
  · intro hf
    have hskip : ∀ r, HTMLCleaner.skipRow t r = false := by
      intro r
      simp only [HTMLCleaner.skipRow, htruthy, hall, Bool.not_false, Bool.true_and]
      by_cases h : r = first
      · subst h
        simp [hf]
      · simp [h]
    simp [HTMLCleaner.bodyLines, hall, hskip]

/-- C3 amended witness: the concrete single-`<td>`-row table. -/
theorem table_header_fallback_amended_witness :
    HTMLCleaner.headers ⟨none, [⟨[⟨false, true, "A"⟩]⟩]⟩ =
      List.map HTMLCleaner.cellText [⟨false, true, "A"⟩]
    ∧ HTMLCleaner.hasTruthyTh ⟨[⟨false, true, "A"⟩]⟩ = false
    ∧ HTMLCleaner.bodyLines ⟨none, [⟨[⟨false, true, "A"⟩]⟩]⟩ =
        List.filterMap HTMLCleaner.rowLine [⟨[⟨false, true, "A"⟩]⟩] :=
  ⟨(table_header_fallback_amended ⟨none, [⟨[⟨false, true, "A"⟩]⟩]⟩
      ⟨[⟨false, true, "A"⟩]⟩ [] rfl rfl).1,
   by decide,
   (table_header_fallback_amended ⟨none, [⟨[⟨false, true, "A"⟩]⟩]⟩
      ⟨[⟨false, true, "A"⟩]⟩ [] rfl rfl).2.2 (by decide)⟩

/-- C4 counterexample: a `<title>` tag with two children — as `html.parser`
produces for `<title>A<b>B</b></title>` — is truthy but has `Tag.string =
None`, so `soup.title.string.strip()` raises `AttributeError` even with an
`<h1>` present: title extraction does not always return a value. -/
theorem extract_title_raises_cex :
    HTMLCleaner.extract_title (some [.text "A", .tag [.text "B"]])
        (some [.text "H"]) =
      .error "AttributeError: NoneType object has no attribute strip" := by
  simp [HTMLCleaner.extract_title, tagString]

/-- C4 amended: when the `<title>` tag has children and its `Tag.string`
resolves (a single-child chain ending in one text node), title extraction
returns that string stripped; when the title tag is absent or childless it
returns the first `<h1>`'s stripped `get_text()` if that tag has children
(which can be the empty string), else the fixed placeholder; but when a
non-empty `<title>` has `Tag.string = None` (several children, or a chain not
ending in a single text node) the call raises `AttributeError` instead of
returning. -/
theorem extract_title_fallback_amended (titleTag h1Tag : Option (List SoupNode)) :
    (∀ c cs s, titleTag = some (c :: cs) → tagString (c :: cs) = some s →
      HTMLCleaner.extract_title titleTag h1Tag = .ok (pyStrip s))
    ∧ (∀ c cs, titleTag = some (c :: cs) → tagString (c :: cs) = none →
        HTMLCleaner.extract_title titleTag h1Tag =
          .error "AttributeError: NoneType object has no attribute strip")
    ∧ ((titleTag = none ∨ titleTag = some []) → ∀ c cs, h1Tag = some (c :: cs) →
        HTMLCleaner.extract_title titleTag h1Tag = .ok (pyStrip (getText (c :: cs))))
    ∧ ((titleTag = none ∨ titleTag = some []) → (h1Tag = none ∨ h1Tag = some []) →
        HTMLCleaner.extract_title titleTag h1Tag = .ok "No title found") := by
  refine ⟨?_, ?_, ?_, ?_⟩
  · intro c cs s ht hs
    subst ht
    simp [HTMLCleaner.extract_title, hs]
  · intro c cs ht hs
    subst ht
    simp [HTMLCleaner.extract_title, hs]
  · intro hti c cs hh
    subst hh
    rcases hti with h | h <;> subst h <;>
      simp [HTMLCleaner.extract_title]
  · intro hti hh1
    rcases hti with h | h <;> subst h <;>
      rcases hh1 with h' | h' <;> subst h' <;>
        simp [HTMLCleaner.extract_title]

/-- C4 amended witness: resolving title; raising title; childless title with
a truthy but textless `<h1>` (code returns the empty string); neither tag. -/
theorem extract_title_fallback_amended_witness :
    HTMLCleaner.extract_title (some [.text " T "]) (some [.text "H"]) =
      .ok (pyStrip " T ")
    ∧ HTMLCleaner.extract_title (some [.text "A", .tag [.text "B"]]) none =
        .error "AttributeError: NoneType object has no attribute strip"
    ∧ HTMLCleaner.extract_title (some []) (some [.tag []]) =
        .ok (pyStrip (getText [.tag []]))
    ∧ HTMLCleaner.extract_title none none = .ok "No title found" :=
  ⟨(extract_title_fallback_amended (some [.text " T "]) (some [.text "H"])).1
      (.text " T ") [] " T " rfl (by simp [tagString]),
   (extract_title_fallback_amended (some [.text "A", .tag [.text "B"]]) none).2.1
      (.text "A") [.tag [.text "B"]] rfl (by simp [tagString]),
   (extract_title_fallback_amended (some []) (some [.tag []])).2.2.1
      (Or.inr rfl) (.tag []) [] rfl,
   (extract_title_fallback_amended none none).2.2.2 (Or.inl rfl) (Or.inl rfl)⟩

/-- C5: a 200 response whose `Content-Length` header exceeds the 10 MiB cap
makes `fetch_url` return the synthetic `text/plain` outcome stating the
reported size and the cap; the result does not depend on (and never contains)
the response body, which is universally quantified. -/
theorem fetch_url_size_guard (status n : Nat) (ct : String) (b : Option String)
    (hs : status = 200) (hn : n > WebFetcher.MAX_CONTENT_SIZE) :
    WebFetcher.fetch_url true true (.response ⟨status, some n, ct, b⟩) =
      Except.ok (.ok ("Content too large to process (size: " ++ toString n ++
        " bytes, max: " ++ toString WebFetcher.MAX_CONTENT_SIZE ++ " bytes)")
        "text/plain")
    ∧ toString WebFetcher.MAX_CONTENT_SIZE = "10485760" := by
  subst hs
  exact ⟨by simp [WebFetcher.fetch_url, hn], by rfl⟩

/-- C5 witness: one byte over the cap. -/
theorem fetch_url_size_guard_witness :
    WebFetcher.fetch_url true true
        (.response ⟨200, some 10485761, "text/html", some "body"⟩) =
      Except.ok (.ok ("Content too large to process (size: " ++
          toString 10485761 ++ " bytes, max: " ++
          toString WebFetcher.MAX_CONTENT_SIZE ++ " bytes)") "text/plain")
    ∧ toString WebFetcher.MAX_CONTENT_SIZE = "10485760" :=
  fetch_url_size_guard 200 10485761 "text/html" (some "body") rfl (by decide)

/-- C6 counterexample: with requested count 1 and a backend response holding
two results, the Brave adapter returns two results — it does not truncate to
the caller-requested count. -/
theorem brave_returns_more_than_requested_cex :
    ¬ ((BraveSearchClient.search (some "key")
        (.response 200 (some (.obj [("web", .obj [("results",
          .arr [.obj [], .obj []])])])))
        1).length ≤ 1) := by decide

/-- C6 amended: the SearXNG and DuckDuckGo adapters return the
provider-ranked sequence truncated to the requested count (hence at most `n`
results); the Brave adapter only forwards the count to the backend and
returns the processed backend list untruncated. -/
theorem adapters_truncation_amended (n : Nat) :
    (∀ ev, (SearXNGClient.search ev n).length ≤ n)
    ∧ (∀ data l, SearXNGClient.processResults data = Except.ok l →
        SearXNGClient.search (.response 200 (some data)) n = l.take n)
    ∧ (∀ ev, (DuckDuckGoClient.search ev n).length ≤ n)
    ∧ (∀ tm sm, DuckDuckGoClient.search (.response 200 tm sm) n =
        (DuckDuckGoClient.parseHtmlResults tm sm).take n)
    ∧ (∀ k data l, k ≠ "" →
        BraveSearchClient.processBraveResults data = Except.ok l →
        BraveSearchClient.search (some k) (.response 200 (some data)) n = l) := by
  refine ⟨?_, ?_, ?_, ?_, ?_⟩
  · intro ev
    cases ev with
    | transportError => simp [SearXNGClient.search, SearXNGClient.searchE,
        SearXNGClient.searchBody, handleAll, getList]
    | response s p =>
      by_cases hs : s = 200
      · subst hs
        cases p with
        | none => simp [SearXNGClient.search, SearXNGClient.searchE,
            SearXNGClient.searchBody, handleAll, getList]
        | some data =>
          cases h : SearXNGClient.processResults data with
          | error e => simp [SearXNGClient.search, SearXNGClient.searchE,
              SearXNGClient.searchBody, h, handleAll, getList]
          | ok l =>
            simp [SearXNGClient.search, SearXNGClient.searchE,
              SearXNGClient.searchBody, h, handleAll, getList,
              List.length_take]
      · simp [SearXNGClient.search, SearXNGClient.searchE,
          SearXNGClient.searchBody, hs, handleAll, getList]
  · intro data l h
    simp [SearXNGClient.search, SearXNGClient.searchE,
      SearXNGClient.searchBody, h, handleAll, getList]
  · intro ev
    cases ev with
    | transportError => simp [DuckDuckGoClient.search, DuckDuckGoClient.searchE,
        DuckDuckGoClient.searchBody, handleAll, getList]
    | response s tm sm =>
      by_cases hs : s = 200
      · subst hs
        simp [DuckDuckGoClient.search, DuckDuckGoClient.searchE,
          DuckDuckGoClient.searchBody, handleAll, getList, List.length_take]
      · simp [DuckDuckGoClient.search, DuckDuckGoClient.searchE,
          DuckDuckGoClient.searchBody, hs, handleAll, getList]
  · intro tm sm
    simp [DuckDuckGoClient.search, DuckDuckGoClient.searchE,
      DuckDuckGoClient.searchBody, handleAll, getList]
  · intro k data l hk h
    simp [BraveSearchClient.search, BraveSearchClient.searchE,
      BraveSearchClient.searchBody, hk, h, handleAll, getList]

/-- C6 amended witness: concrete truncations and the Brave passthrough. -/
theorem adapters_truncation_amended_witness :
    (SearXNGClient.search (.response 200 (some (.obj [("results",
        .arr [.obj [], .obj []])]))) 1).length ≤ 1
    ∧ DuckDuckGoClient.search (.response 200 [("u", "t")] []) 5 =
        (DuckDuckGoClient.parseHtmlResults [("u", "t")] []).take 5
    ∧ BraveSearchClient.search (some "key")
        (.response 200 (some (.obj [("web", .obj [("results",
          .arr [.obj []])])]))) 1 =
        [⟨.str "", .str "", .str ""⟩] :=
  ⟨(adapters_truncation_amended 1).1 _,
   (adapters_truncation_amended 5).2.2.2.1 [("u", "t")] [],
   (adapters_truncation_amended 1).2.2.2.2 "key"
     (.obj [("web", .obj [("results", .arr [.obj []])])])
     [⟨.str "", .str "", .str ""⟩] (by decide) (by rfl)⟩

/-- C7: a payload declared `application/json` that fails to parse yields the
plain-text fallback document with the invalidity placeholder title and the
content verbatim, with no error propagation; a parsed top-level object with a
`title` field `v` yields title `JSON: v` and the pretty-printed JSON in a
fenced code block. -/
theorem extract_text_content_json_contract (content url ct : String)
    (fields : List (String × Json)) (v : Json)
    (hct1 : strContains ct "text/plain" = false)
    (hct2 : strContains ct "application/json" = true) :
    extract_text_content content none ct url =
      { title := "Invalid JSON Document", url := url, content := content }
    ∧ (fields.lookup "title" = some v →
        extract_text_content content (some (.obj fields)) ct url =
          { title := "JSON: " ++ pyStr v
            url := url
            content := "```json\n" ++ dumps2 0 (.obj fields) ++ "\n```" }) := by
  constructor
  · simp [extract_text_content, hct1, hct2]
  · intro hv
    simp [extract_text_content, hct1, hct2, jsonTitle, List.find?, hv]

/-- C7 witness: the spec's own example `{"title": "X"}`, and an unparseable
payload. -/
theorem extract_text_content_json_contract_witness :
    extract_text_content "\x7bbad" none "application/json" "http://e" =
      { title := "Invalid JSON Document", url := "http://e", content := "\x7bbad" }
    ∧ extract_text_content "\x7b\"title\": \"X\"\x7d"
        (some (.obj [("title", .str "X")])) "application/json" "http://e" =
      { title := "JSON: " ++ pyStr (.str "X")
        url := "http://e"
        content := "```json\n" ++ dumps2 0 (.obj [("title", .str "X")]) ++ "\n```" } :=
  ⟨(extract_text_content_json_contract "\x7bbad" "http://e" "application/json"
      [("title", .str "X")] (.str "X") (by decide) (by decide)).1,
   (extract_text_content_json_contract "\x7b\"title\": \"X\"\x7d" "http://e"
      "application/json" [("title", .str "X")] (.str "X")
      (by decide) (by decide)).2 (by rfl)⟩

/-- C8: the selector returns the adapter matching each recognized provider
identifier and falls back to the SearXNG client on any other identifier,
without failing. -/
theorem get_client_selects_and_defaults :
    (SearchClientFactory.get_client "searxng" = ClientKind.searxng
      ∧ SearchClientFactory.get_client "duckduckgo" = ClientKind.duckduckgo
      ∧ SearchClientFactory.get_client "brave" = ClientKind.brave)
    ∧ (∀ p : String, p ≠ "searxng" → p ≠ "duckduckgo" → p ≠ "brave" →
        SearchClientFactory.get_client p = ClientKind.searxng) := by
  refine ⟨⟨rfl, rfl, rfl⟩, ?_⟩
  intro p h1 h2 h3
  simp [SearchClientFactory.get_client, h1, h2, h3]

/-- C8 witness: an unrecognized identifier. -/
theorem get_client_selects_and_defaults_witness :
    SearchClientFactory.get_client "bing" = ClientKind.searxng :=
  get_client_selects_and_defaults.2 "bing" (by decide) (by decide) (by decide)

/-- C9 counterexample: when the adapter returns an empty list, the JSON
response of the search endpoint is `{"results": [], "query": q}` — it does
not contain the resolved provider name. -/
theorem search_empty_json_lacks_provider_cex :
    search_endpoint [] "hello" OutputFormat.json "duckduckgo" =
      SearchResponse.json [] "hello" none := by decide

/-- C9 amended: a JSON search response carries the result list, the original
query and the resolved provider name when the result list is non-empty; on an
empty result list it carries only the empty list and the query, with no
provider member. -/
theorem search_json_response_amended (results : List SearchResult)
    (q provider : String) (h : results ≠ []) :
    search_endpoint results q OutputFormat.json provider =
      SearchResponse.json results q (some provider)
    ∧ search_endpoint [] q OutputFormat.json provider =
      SearchResponse.json [] q none := by
  constructor
  · simp [search_endpoint, h]
  · simp [search_endpoint]

/-- C9 amended witness: a one-element result list. -/
theorem search_json_response_amended_witness :
    search_endpoint [⟨"t", "u", "s"⟩] "q" OutputFormat.json "brave" =
      SearchResponse.json [⟨"t", "u", "s"⟩] "q" (some "brave")
    ∧ search_endpoint [] "q" OutputFormat.json "brave" =
      SearchResponse.json [] "q" none :=
  search_json_response_amended [⟨"t", "u", "s"⟩] "q" "brave" (by decide)

/-- C10: the DuckDuckGo result scraper returns exactly one record per matched
result anchor; each record is a full three-string-field record whose url and
title come from that anchor; and when there are fewer snippet matches than
anchors, the surplus records carry the empty string as snippet instead of
being dropped. -/
theorem ddg_parse_record_shape (tm : List (String × String)) (sm : List String) :
    (DuckDuckGoClient.parseHtmlResults tm sm).length = tm.length
    ∧ (∀ j r, (DuckDuckGoClient.parseHtmlResults tm sm)[j]? = some r →
        (∃ u t, tm[j]? = some (u, t) ∧ r.url = u
          ∧ r.title = decodeEntities (pyStrip t))
        ∧ (sm.length ≤ j → r.snippet = "")) := by
  constructor
  · exact ddgParseGo_length sm tm 0
  · intro j r hr
    rw [DuckDuckGoClient.parseHtmlResults, ddgParseGo_getElem? sm tm 0 j] at hr
    cases htm : tm[j]? with
    | none => rw [htm] at hr; simp at hr
    | some ut =>
      rw [htm] at hr
      simp only [Option.map_some'] at hr
      cases ut with
      | mk u t =>
        have hrr : r = ddgEntry sm (0 + j) u t := by
          injection hr with h
          exact h.symm
        subst hrr
        refine ⟨⟨u, t, rfl, rfl, rfl⟩, ?_⟩
        intro hsm
        have hnone : sm[0 + j]? = none := by
          apply List.getElem?_eq_none
          omega
        have hsnip : (ddgEntry sm (0 + j) u t).snippet =
            decodeEntities (pyStrip (match sm[0 + j]? with
              | some s => stripTags s
              | none => "")) := rfl
        rw [hsnip, hnone]
        decide

/-- C10 witness: two anchors, one snippet; the surplus record keeps an empty
snippet. -/
theorem ddg_parse_record_shape_witness :
    (DuckDuckGoClient.parseHtmlResults [("u1", "t1"), ("u2", "t2")] ["s1"]).length = 2
    ∧ (⟨"t2", "u2", ""⟩ : SearchResult).snippet = "" :=
  ⟨(ddg_parse_record_shape [("u1", "t1"), ("u2", "t2")] ["s1"]).1,
   ((ddg_parse_record_shape [("u1", "t1"), ("u2", "t2")] ["s1"]).2 1
      ⟨"t2", "u2", ""⟩ (by decide)).2 (by decide)⟩

end Surf
